import Mathlib

/-!
Shallow embedding of the looney-tunes pipecat demo backend.

`backend/progress_tracker.py` defines three pipecat `FrameProcessor`
subclasses (`STTProgressProcessor`, `LLMProgressProcessor`,
`TTSStatusProcessor`).  Each one dispatches on the type of the incoming
frame, possibly pushes `OutputTransportMessageFrame`s downstream, and
finally pushes the incoming frame onward in its original direction.
`backend/server.py` defines the `/api/connect` FastAPI handler, and
`backend/bot.py` builds the pipeline stage list.

The embedding models a processor step as a pure function from the
processor's mutable state and the incoming frame (plus the current clock
value in milliseconds, standing for `int(time.time() * 1000)`) to the new
state and the ordered list of `push_frame` calls the step performs.
-/

/-- `FrameDirection` from `pipecat.processors.frame_processor`. -/
inductive FrameDirection where
  | downstream
  | upstream
deriving DecidableEq, Repr

/-- The payload dict of an `OutputTransportMessageFrame` built by the
progress trackers: either a status message (`{"type": "status", ...}`) or a
transcript message (`{"type": "transcript", ...}`).  Optional fields
(`text` for status messages, `messageId` for transcripts) are `Option`s. -/
inductive OutMsg where
  | status (status : String) (text : Option String)
  | transcript (role : String) (text : String) (final : Bool)
      (timestamp : Nat) (messageId : Option Nat)
deriving DecidableEq, Repr

/-- The `"type"` entry of the message dict. -/
def OutMsg.type : OutMsg → String
  | .status _ _ => "status"
  | .transcript _ _ _ _ _ => "transcript"

/-- The frame types from `pipecat.frames.frames` that the progress trackers
dispatch on, plus `outputTransportMessageFrame` (the frames they emit) and a
catch-all `otherFrame` for every other frame type in the framework. -/
inductive Frame where
  | transcriptionFrame (text : String)
  | interimTranscriptionFrame (text : String)
  | llmFullResponseStartFrame
  | llmTextFrame (text : String)
  | llmFullResponseEndFrame
  | ttsStartedFrame
  | ttsStoppedFrame
  | ttsSpeakFrame (text : String)
  | startInterruptionFrame
  | outputTransportMessageFrame (message : OutMsg)
  | otherFrame (tag : Nat)
deriving DecidableEq, Repr

/-- One `push_frame(frame, direction)` call. -/
abbrev Push := Frame × FrameDirection

/-- The message carried by a push, when the pushed frame is an
`OutputTransportMessageFrame`. -/
def msgOfPush (p : Push) : Option OutMsg :=
  match p.1 with
  | .outputTransportMessageFrame m => some m
  | _ => none

/-- The messages a step emitted itself: every push except the last one
(each `process_frame` ends with the unconditional forward of the incoming
frame, so the emitted messages are the pushes before it). -/
def emittedOf (out : List Push) : List OutMsg :=
  out.dropLast.filterMap msgOfPush

namespace STTProgressProcessor

/-- `_send_status` only adds the `"text"` key when `if text:` holds, i.e.
when `text` is neither `None` nor the empty string. -/
def textField (text : Option String) : Option String :=
  match text with
  | some t => if t = "" then none else some t
  | none => none

/-- `STTProgressProcessor._send_status`: push a status message downstream. -/
def send_status (status : String) (text : Option String) : Push :=
  (.outputTransportMessageFrame (.status status (textField text)),
   .downstream)

/-- `STTProgressProcessor._send_transcript`: push a transcript message
downstream; `messageId` is included whenever `message_id is not None`. -/
def send_transcript (role : String) (text : String) (final : Bool)
    (message_id : Option Nat) (now_ms : Nat) : Push :=
  (.outputTransportMessageFrame
     (.transcript role text final now_ms message_id),
   .downstream)

/-- `STTProgressProcessor.process_frame`.  The state is
`self._user_message_id`. -/
def process_frame (user_message_id : Nat) (frame : Frame)
    (direction : FrameDirection) (now_ms : Nat) : Nat × List Push :=
  match frame with
  | .interimTranscriptionFrame t =>
      (user_message_id,
       [send_status "listening" (some t), (frame, direction)])
  | .transcriptionFrame t =>
      let new_id := user_message_id + 1
      (new_id,
       [send_status "stt" (some t),
        send_transcript "user" t true (some new_id) now_ms,
        send_status "llm" none,
        (frame, direction)])
  | _ => (user_message_id, [(frame, direction)])

/-- Process a list of frames in order, collecting the emitted messages
(forwarded incoming frames are not collected). -/
def run (now_ms : Nat) : Nat → List (Frame × FrameDirection) →
    Nat × List OutMsg
  | st, [] => (st, [])
  | st, fd :: rest =>
      let r := process_frame st fd.1 fd.2 now_ms
      let rr := run now_ms r.1 rest
      (rr.1, emittedOf r.2 ++ rr.2)

end STTProgressProcessor

namespace LLMProgressProcessor

/-- The mutable state of `LLMProgressProcessor`. -/
structure State where
  assistant_text : String
  assistant_message_id : Nat
deriving DecidableEq, Repr

/-- `LLMProgressProcessor._send_transcript` (same code as the STT one). -/
def send_transcript (role : String) (text : String) (final : Bool)
    (message_id : Option Nat) (now_ms : Nat) : Push :=
  (.outputTransportMessageFrame
     (.transcript role text final now_ms message_id),
   .downstream)

/-- `LLMProgressProcessor.process_frame`. -/
def process_frame (st : State) (frame : Frame)
    (direction : FrameDirection) (now_ms : Nat) : State × List Push :=
  match frame with
  | .llmFullResponseStartFrame =>
      (⟨"", st.assistant_message_id + 1⟩, [(frame, direction)])
  | .llmTextFrame t =>
      let new_text := st.assistant_text ++ t
      (⟨new_text, st.assistant_message_id⟩,
       [send_transcript "assistant" new_text false
          (some st.assistant_message_id) now_ms,
        (frame, direction)])
  | .llmFullResponseEndFrame =>
      if st.assistant_text = "" then
        (st, [(frame, direction)])
      else
        (⟨"", st.assistant_message_id⟩,
         [send_transcript "assistant" st.assistant_text true
            (some st.assistant_message_id) now_ms,
          (frame, direction)])
  | _ => (st, [(frame, direction)])

/-- Process a list of frames in order, collecting the emitted messages. -/
def run (now_ms : Nat) : State → List (Frame × FrameDirection) →
    State × List OutMsg
  | st, [] => (st, [])
  | st, fd :: rest =>
      let r := process_frame st fd.1 fd.2 now_ms
      let rr := run now_ms r.1 rest
      (rr.1, emittedOf r.2 ++ rr.2)

end LLMProgressProcessor

namespace TTSStatusProcessor

/-- `TTSStatusProcessor.process_frame`.  The state is `self._is_speaking`. -/
def process_frame (is_speaking : Bool) (frame : Frame)
    (direction : FrameDirection) : Bool × List Push :=
  match frame with
  | .startInterruptionFrame =>
      if is_speaking then
        (false,
         [(.outputTransportMessageFrame (.status "idle" none), .downstream),
          (frame, direction)])
      else
        (is_speaking, [(frame, direction)])
  | .ttsStartedFrame =>
      if is_speaking then
        (is_speaking, [(frame, direction)])
      else
        (true,
         [(.outputTransportMessageFrame (.status "tts" none), .downstream),
          (frame, direction)])
  | .ttsStoppedFrame =>
      if is_speaking then
        (false,
         [(.outputTransportMessageFrame (.status "idle" none), .downstream),
          (frame, direction)])
      else
        (is_speaking, [(frame, direction)])
  | .ttsSpeakFrame _ =>
      if is_speaking then
        (is_speaking, [(frame, direction)])
      else
        (true,
         [(.outputTransportMessageFrame (.status "tts" none), .downstream),
          (frame, direction)])
  | _ => (is_speaking, [(frame, direction)])

/-- Process a list of frames in order, collecting the emitted messages. -/
def run : Bool → List (Frame × FrameDirection) → Bool × List OutMsg
  | b, [] => (b, [])
  | b, fd :: rest =>
      let r := process_frame b fd.1 fd.2
      let rr := run r.1 rest
      (rr.1, emittedOf r.2 ++ rr.2)

end TTSStatusProcessor

/-! ### `server.py`: the `/api/connect` handler -/

/-- The `properties` of the `DailyRoomParams` that `connect` builds. -/
structure DailyRoomProperties where
  exp : Nat
  enable_chat : Bool
  enable_emoji_reactions : Bool
  eject_at_room_exp : Bool
deriving DecidableEq, Repr

/-- The room object returned by `DailyRESTHelper.create_room`; `connect`
only uses its `url`. -/
structure DailyRoom where
  url : String
deriving DecidableEq, Repr

/-- One call to the Daily REST API made through the `DailyRESTHelper`. -/
inductive ApiCall where
  | create_room (props : DailyRoomProperties)
  | get_token (room_url : String) (expiry_time : Nat)
deriving DecidableEq, Repr

/-- The environment of one `connect` invocation: whether the Daily helper
was configured at startup, and the outcome (value or raised exception
message) of each of the three awaited helper calls, in program order. -/
structure ConnectEnv where
  configured : Bool
  create_room_result : Except String DailyRoom
  user_token_result : Except String String
  bot_token_result : Except String String

/-- A FastAPI `HTTPException`. -/
structure HTTPException where
  status_code : Nat
  detail : String
deriving DecidableEq, Repr

/-- The JSON body `connect` returns on success. -/
structure ConnectBody where
  room_url : String
  token : String
deriving DecidableEq, Repr

/-- What one `connect` invocation did: its HTTP outcome, the Daily REST
calls it made in order, and the `(room_url, token)` arguments handed to the
`run_bot` background task (if it got that far). -/
structure ConnectOutcome where
  response : Except HTTPException ConnectBody
  calls : List ApiCall
  bot_task : Option (String × String)
deriving Repr

/-- The `/api/connect` handler (`connect` in `server.py`), with `now` the
value of `time.time()`.  The body of the `try` block makes one
`create_room` call (expiry `now + 600`, chat and emoji reactions disabled,
eject at room expiry) and two `get_token` calls (expiry 600 s); any
exception raised inside the block is mapped to HTTP 500 with detail
`"Failed to connect: " ++ str(e)`. -/
def connect (now : Nat) (env : ConnectEnv) : ConnectOutcome :=
  if env.configured then
    let props : DailyRoomProperties :=
      { exp := now + 600
        enable_chat := false
        enable_emoji_reactions := false
        eject_at_room_exp := true }
    match env.create_room_result with
    | .error e =>
        { response := .error ⟨500, "Failed to connect: " ++ e⟩
          calls := [.create_room props]
          bot_task := none }
    | .ok room =>
        match env.user_token_result with
        | .error e =>
            { response := .error ⟨500, "Failed to connect: " ++ e⟩
              calls := [.create_room props, .get_token room.url 600]
              bot_task := none }
        | .ok user_token =>
            match env.bot_token_result with
            | .error e =>
                { response := .error ⟨500, "Failed to connect: " ++ e⟩
                  calls := [.create_room props, .get_token room.url 600,
                            .get_token room.url 600]
                  bot_task := none }
            | .ok bot_token =>
                { response := .ok ⟨room.url, user_token⟩
                  calls := [.create_room props, .get_token room.url 600,
                            .get_token room.url 600]
                  bot_task := some (room.url, bot_token) }
  else
    { response := .error ⟨500, "Daily API not configured"⟩
      calls := []
      bot_task := none }

/-! ### `bot.py`: the pipeline stage list built by `run_bot` -/

/-- The ten processors `run_bot` places in the `Pipeline`, in source
order. -/
inductive Stage where
  | transport_input
  | stt
  | stt_progress
  | context_aggregator_user
  | llm
  | llm_progress
  | tts
  | tts_status
  | transport_output
  | context_aggregator_assistant
deriving DecidableEq, Repr

/-- The stage list passed to `Pipeline(...)` in `run_bot`. -/
def run_bot_stages : List Stage :=
  [.transport_input, .stt, .stt_progress, .context_aggregator_user,
   .llm, .llm_progress, .tts, .tts_status, .transport_output,
   .context_aggregator_assistant]

/-! ### Observation functions -/

/-- The status value of a status message. -/
def statusOf : OutMsg → Option String
  | .status s _ => some s
  | .transcript _ _ _ _ _ => none

/-- Whether a message is a transcript with `final = true`. -/
def isFinalTranscript : OutMsg → Bool
  | .transcript _ _ true _ _ => true
  | _ => false

/-- The `messageId`s carried by the transcript messages of a list, in
order. -/
def transcriptIds (msgs : List OutMsg) : List Nat :=
  msgs.filterMap fun m =>
    match m with
    | .transcript _ _ _ _ (some i) => some i
    | _ => none

/-- Whether a status message's value is one of the five documented status
values (vacuously true of transcript messages). -/
def statusAllowed (m : OutMsg) : Bool :=
  match m with
  | .status s _ =>
      s == "listening" || s == "stt" || s == "llm" || s == "tts" ||
        s == "idle"
  | .transcript _ _ _ _ _ => true

/-! ### Theorems -/

/-- C6: each progress-tracker processor forwards the incoming frame itself
onward, unmodified and in its original direction, as its last push, for
every frame, both directions and every processor state. -/
theorem c6_processors_forward_frame_unmodified :
    ∀ (st : Nat) (ls : LLMProgressProcessor.State) (b : Bool)
      (f : Frame) (d : FrameDirection) (now : Nat),
      (STTProgressProcessor.process_frame st f d now).2.getLast? =
          some (f, d) ∧
      (LLMProgressProcessor.process_frame ls f d now).2.getLast? =
          some (f, d) ∧
      (TTSStatusProcessor.process_frame b f d).2.getLast? = some (f, d) := by
  intro st ls b f d now
  refine ⟨?_, ?_, ?_⟩ <;>
    cases f <;>
      simp only [STTProgressProcessor.process_frame,
        LLMProgressProcessor.process_frame,
        TTSStatusProcessor.process_frame] <;>
      first
        | rfl
        | (split <;> rfl)

/-- C8: in the stage list `run_bot` passes to `Pipeline`, the STT service
precedes the LLM service, which precedes the TTS service, and the matching
progress processor sits immediately after each of the three services. -/
theorem c8_pipeline_stage_order :
    run_bot_stages.indexOf Stage.stt < run_bot_stages.indexOf Stage.llm ∧
    run_bot_stages.indexOf Stage.llm < run_bot_stages.indexOf Stage.tts ∧
    run_bot_stages.indexOf Stage.stt_progress =
      run_bot_stages.indexOf Stage.stt + 1 ∧
    run_bot_stages.indexOf Stage.llm_progress =
      run_bot_stages.indexOf Stage.llm + 1 ∧
    run_bot_stages.indexOf Stage.tts_status =
      run_bot_stages.indexOf Stage.tts + 1 := by
  decide

/-- C5: every status message any of the three processors emits, on any
state, frame and direction, has its status value in
`{"listening", "stt", "llm", "tts", "idle"}`, and every status message has
`type = "status"`. -/
theorem c5_status_values_closed_set :
    (∀ (st : Nat) (f : Frame) (d : FrameDirection) (now : Nat),
       (emittedOf
           (STTProgressProcessor.process_frame st f d now).2).all
         statusAllowed = true) ∧
    (∀ (ls : LLMProgressProcessor.State) (f : Frame) (d : FrameDirection)
       (now : Nat),
       (emittedOf
           (LLMProgressProcessor.process_frame ls f d now).2).all
         statusAllowed = true) ∧
    (∀ (b : Bool) (f : Frame) (d : FrameDirection),
       (emittedOf (TTSStatusProcessor.process_frame b f d).2).all
         statusAllowed = true) ∧
    (∀ (s : String) (t : Option String),
       (OutMsg.status s t).type = "status") := by
  refine ⟨?_, ?_, ?_, fun s t => rfl⟩
  · intro st f d now
    cases f <;> rfl
  · intro ls f d now
    cases f <;> try rfl
    simp only [LLMProgressProcessor.process_frame]
    split <;> rfl
  · intro b f d
    cases f <;> cases b <;> rfl

/-- C2 (counterexample): on a `TranscriptionFrame` whose text is the empty
string, the first emitted message is a status message with no `text` field
(Python `if text:` is false for `""`), not one carrying the transcription
text, so the emitted sequence differs from the one the claim states. -/
theorem c2_counterexample_empty_text :
    emittedOf
        (STTProgressProcessor.process_frame 0
          (.transcriptionFrame "") .downstream 1000).2 ≠
      [.status "stt" (some ""),
       .transcript "user" "" true 1000 (some 1),
       .status "llm" none] := by
  decide

/-- C2 (amended): for every `TranscriptionFrame` the STT processor emits
exactly a status `"stt"` message, then a final user transcript with a
freshly incremented message id, then a status `"llm"` message; for every
`InterimTranscriptionFrame` exactly one status `"listening"` message; and
nothing for any other frame — except that the status messages carry the
text only when it is non-empty (the `text` field is omitted for `""`). -/
theorem c2_stt_emission_sequence :
    ∀ (st : Nat) (f : Frame) (d : FrameDirection) (now : Nat),
      emittedOf (STTProgressProcessor.process_frame st f d now).2 =
        match f with
        | .interimTranscriptionFrame t =>
            [.status "listening" (if t = "" then none else some t)]
        | .transcriptionFrame t =>
            [.status "stt" (if t = "" then none else some t),
             .transcript "user" t true now (some (st + 1)),
             .status "llm" none]
        | _ => [] := by
  intro st f d now
  cases f <;> rfl

/-- C4: inside the `try` block of `/api/connect`, every exception (from
room creation or either token generation) becomes an HTTP 500 whose detail
is `"Failed to connect: "` followed by the exception's message; on success
the body is exactly the room URL and the user token; and on every
environment the handler either returns a body or raises an `HTTPException`
with status code 500. -/
theorem c4_connect_exception_mapping :
    (∀ (now : Nat) (room : DailyRoom) (ut bt : String),
       (connect now ⟨true, .ok room, .ok ut, .ok bt⟩).response =
         .ok ⟨room.url, ut⟩) ∧
    (∀ (now : Nat) (e : String) (r2 r3 : Except String String),
       (connect now ⟨true, .error e, r2, r3⟩).response =
         .error ⟨500, "Failed to connect: " ++ e⟩) ∧
    (∀ (now : Nat) (room : DailyRoom) (e : String)
       (r3 : Except String String),
       (connect now ⟨true, .ok room, .error e, r3⟩).response =
         .error ⟨500, "Failed to connect: " ++ e⟩) ∧
    (∀ (now : Nat) (room : DailyRoom) (ut e : String),
       (connect now ⟨true, .ok room, .ok ut, .error e⟩).response =
         .error ⟨500, "Failed to connect: " ++ e⟩) ∧
    (∀ (now : Nat) (env : ConnectEnv),
       (∃ b, (connect now env).response = .ok b) ∨
       (∃ d, (connect now env).response = .error ⟨500, d⟩)) := by
  refine ⟨fun _ _ _ _ => rfl, fun _ _ _ _ => rfl, fun _ _ _ _ => rfl,
    fun _ _ _ _ => rfl, ?_⟩
  intro now env
  obtain ⟨c, r1, r2, r3⟩ := env
  cases c
  · exact Or.inr ⟨"Daily API not configured", rfl⟩
  · cases r1 with
    | error e => exact Or.inr ⟨"Failed to connect: " ++ e, rfl⟩
    | ok room =>
      cases r2 with
      | error e => exact Or.inr ⟨"Failed to connect: " ++ e, rfl⟩
      | ok ut =>
        cases r3 with
        | error e => exact Or.inr ⟨"Failed to connect: " ++ e, rfl⟩
        | ok bt => exact Or.inl ⟨⟨room.url, ut⟩, rfl⟩

/-- C7: on the success path, `/api/connect` creates the room with expiry
`now + 600` (chat and emoji reactions disabled, eject at room expiry),
generates two separate tokens each with a 600-second expiry, returns the
user token to the client, and hands the bot token (only) to the `run_bot`
background task together with the room URL. -/
theorem c7_room_expiry_and_tokens :
    ∀ (now : Nat) (room : DailyRoom) (ut bt : String),
      (connect now ⟨true, .ok room, .ok ut, .ok bt⟩).calls =
          [.create_room ⟨now + 600, false, false, true⟩,
           .get_token room.url 600, .get_token room.url 600] ∧
      (connect now ⟨true, .ok room, .ok ut, .ok bt⟩).response =
          .ok ⟨room.url, ut⟩ ∧
      (connect now ⟨true, .ok room, .ok ut, .ok bt⟩).bot_task =
          some (room.url, bt) := by
  intro now room ut bt
  exact ⟨rfl, rfl, rfl⟩

/-- C9 (counterexample): a concrete successful `/api/connect` invocation
makes three Daily REST calls (one `create_room` and two `get_token`), not
exactly one. -/
theorem c9_counterexample_three_calls :
    (connect 0 ⟨true, .ok ⟨"https://example.daily.co/demo"⟩,
        .ok "user-token", .ok "bot-token"⟩).response =
        .ok ⟨"https://example.daily.co/demo", "user-token"⟩ ∧
    (connect 0 ⟨true, .ok ⟨"https://example.daily.co/demo"⟩,
        .ok "user-token", .ok "bot-token"⟩).calls.length ≠ 1 := by
  exact ⟨rfl, by decide⟩

/-- C9 (amended): on the success path, `/api/connect` makes exactly three
calls to the Daily REST API, in order: one room creation and two token
generations. -/
theorem c9_success_path_api_calls :
    ∀ (now : Nat) (room : DailyRoom) (ut bt : String),
      (connect now ⟨true, .ok room, .ok ut, .ok bt⟩).calls =
          [.create_room ⟨now + 600, false, false, true⟩,
           .get_token room.url 600, .get_token room.url 600] ∧
      (connect now ⟨true, .ok room, .ok ut, .ok bt⟩).calls.length = 3 := by
  intro now room ut bt
  exact ⟨rfl, rfl⟩

/-! ### TTS status alternation (C1) -/

/-- Frames that start speech when the processor is not speaking
(`TTSStartedFrame`, `TTSSpeakFrame`). -/
def isSpeakStart : Frame → Bool
  | .ttsStartedFrame => true
  | .ttsSpeakFrame _ => true
  | _ => false

/-- Frames that stop speech when the processor is speaking
(`TTSStoppedFrame`, `StartInterruptionFrame`). -/
def isSpeakStop : Frame → Bool
  | .ttsStoppedFrame => true
  | .startInterruptionFrame => true
  | _ => false

/-- The status values the TTS processor emits while handling one frame. -/
def ttsStepStatuses (b : Bool) (f : Frame) (d : FrameDirection) :
    List String :=
  (emittedOf (TTSStatusProcessor.process_frame b f d).2).filterMap statusOf

/-- The status values the TTS processor emits over a whole run. -/
def ttsStatuses (b : Bool) (l : List (Frame × FrameDirection)) :
    List String :=
  (TTSStatusProcessor.run b l).2.filterMap statusOf

/-- Legal TTS status sequences from a given speaking state: from
not-speaking the next status can only be `"tts"` (moving to speaking), from
speaking only `"idle"` (moving back), so the sequence strictly
alternates. -/
inductive AltFrom : Bool → List String → Prop
  | nil (b : Bool) : AltFrom b []
  | tts (l : List String) : AltFrom true l → AltFrom false ("tts" :: l)
  | idle (l : List String) : AltFrom false l → AltFrom true ("idle" :: l)

theorem tts_step_characterization (b : Bool) (f : Frame)
    (d : FrameDirection) :
    (TTSStatusProcessor.process_frame b f d).1 =
        (if isSpeakStart f = true ∧ b = false then true
         else if isSpeakStop f = true ∧ b = true then false
         else b) ∧
    ttsStepStatuses b f d =
        (if isSpeakStart f = true ∧ b = false then ["tts"]
         else if isSpeakStop f = true ∧ b = true then ["idle"]
         else []) := by
  cases f <;> cases b <;>
    simp [TTSStatusProcessor.process_frame, ttsStepStatuses, emittedOf,
      msgOfPush, statusOf, isSpeakStart, isSpeakStop]

theorem ttsStatuses_cons (b : Bool) (fd : Frame × FrameDirection)
    (rest : List (Frame × FrameDirection)) :
    ttsStatuses b (fd :: rest) =
      ttsStepStatuses b fd.1 fd.2 ++
        ttsStatuses (TTSStatusProcessor.process_frame b fd.1 fd.2).1 rest := by
  simp [ttsStatuses, ttsStepStatuses, TTSStatusProcessor.run,
    List.filterMap_append]

theorem tts_run_alternates (l : List (Frame × FrameDirection)) :
    ∀ b, AltFrom b (ttsStatuses b l) := by
  induction l with
  | nil => intro b; exact AltFrom.nil b
  | cons fd rest ih =>
    intro b
    obtain ⟨f, d⟩ := fd
    rw [ttsStatuses_cons]
    obtain ⟨hb, hs⟩ := tts_step_characterization b f d
    rw [hs, hb]
    by_cases h1 : isSpeakStart f = true ∧ b = false
    · rw [if_pos h1, if_pos h1]
      obtain ⟨-, rfl⟩ := h1
      exact AltFrom.tts _ (ih true)
    · rw [if_neg h1, if_neg h1]
      by_cases h2 : isSpeakStop f = true ∧ b = true
      · rw [if_pos h2, if_pos h2]
        obtain ⟨-, rfl⟩ := h2
        exact AltFrom.idle _ (ih false)
      · rw [if_neg h2, if_neg h2]
        simpa using ih b

/-- C1: starting from the initial not-speaking state, the status messages
`TTSStatusProcessor` emits over any frame sequence strictly alternate
between `"tts"` and `"idle"` (first `"tts"`); and per frame, `"tts"` is
emitted exactly on a not-speaking-to-speaking transition
(`TTSStartedFrame`/`TTSSpeakFrame` while not speaking), `"idle"` exactly on
a speaking-to-not-speaking transition
(`TTSStoppedFrame`/`StartInterruptionFrame` while speaking), and nothing
otherwise. -/
theorem c1_tts_status_never_double_emitted :
    (∀ l, AltFrom false (ttsStatuses false l)) ∧
    (∀ (b : Bool) (f : Frame) (d : FrameDirection),
       ttsStepStatuses b f d =
         if isSpeakStart f = true ∧ b = false then ["tts"]
         else if isSpeakStop f = true ∧ b = true then ["idle"]
         else []) := by
  constructor
  · intro l
    exact tts_run_alternates l false
  · intro b f d
    exact (tts_step_characterization b f d).2

/-! ### Message identifiers (C3, C10) -/

/-- Number of final `TranscriptionFrame`s in a frame list. -/
def countTranscriptions : List (Frame × FrameDirection) → Nat
  | [] => 0
  | (f, _) :: rest =>
      (match f with
       | .transcriptionFrame _ => 1
       | _ => 0) + countTranscriptions rest

theorem stt_run_ids (now : Nat) (l : List (Frame × FrameDirection)) :
    ∀ st : Nat,
      (STTProgressProcessor.run now st l).1 = st + countTranscriptions l ∧
      transcriptIds (STTProgressProcessor.run now st l).2 =
        List.range' (st + 1) (countTranscriptions l) := by
  induction l with
  | nil =>
    intro st
    simp [STTProgressProcessor.run, countTranscriptions, transcriptIds]
  | cons fd rest ih =>
    intro st
    obtain ⟨f, d⟩ := fd
    cases f <;>
      simp only [STTProgressProcessor.run, STTProgressProcessor.process_frame,
        STTProgressProcessor.send_status, STTProgressProcessor.send_transcript,
        STTProgressProcessor.textField, countTranscriptions, emittedOf,
        List.dropLast, List.filterMap, msgOfPush, transcriptIds,
        List.filterMap_append] <;>
      first
        | (constructor
           · rw [(ih st).1]; omega
           · have h2 := (ih st).2
             simp only [transcriptIds] at h2
             simp [h2, Nat.zero_add])
        | (constructor
           · rw [(ih (st + 1)).1]; omega
           · have h2 := (ih (st + 1)).2
             simp only [transcriptIds] at h2
             rw [Nat.add_comm 1 (countTranscriptions rest),
               List.range'_succ]
             simp [h2])

/-- Running accumulated texts: element `i` is `acc` followed by the
concatenation of the first `i + 1` texts. -/
def accumTexts : String → List String → List String
  | _, [] => []
  | acc, t :: ts => (acc ++ t) :: accumTexts (acc ++ t) ts

/-- The frame sequence of one complete LLM response:
`LLMFullResponseStartFrame`, one `LLMTextFrame` per text chunk, then
`LLMFullResponseEndFrame`. -/
def turnFrames (texts : List String) (d : FrameDirection) :
    List (Frame × FrameDirection) :=
  (Frame.llmFullResponseStartFrame, d) ::
    (texts.map fun t => (Frame.llmTextFrame t, d)) ++
      [(Frame.llmFullResponseEndFrame, d)]

theorem llm_run_turn_tail (now : Nat) (d : FrameDirection)
    (ts : List String) :
    ∀ (acc : String) (n : Nat),
      LLMProgressProcessor.run now ⟨acc, n⟩
          ((ts.map fun t => (Frame.llmTextFrame t, d)) ++
            [(Frame.llmFullResponseEndFrame, d)]) =
        (⟨"", n⟩,
         ((accumTexts acc ts).map fun a =>
             OutMsg.transcript "assistant" a false now (some n)) ++
           (if ts.foldl (· ++ ·) acc = "" then []
            else [OutMsg.transcript "assistant" (ts.foldl (· ++ ·) acc)
                    true now (some n)])) := by
  induction ts with
  | nil =>
    intro acc n
    by_cases h : acc = ""
    · subst h
      simp [LLMProgressProcessor.run, LLMProgressProcessor.process_frame,
        emittedOf, msgOfPush, accumTexts]
    · simp [LLMProgressProcessor.run, LLMProgressProcessor.process_frame,
        LLMProgressProcessor.send_transcript, emittedOf, msgOfPush,
        accumTexts, h]
  | cons t ts ih =>
    intro acc n
    simp only [List.map_cons, List.cons_append, LLMProgressProcessor.run,
      LLMProgressProcessor.process_frame,
      LLMProgressProcessor.send_transcript, accumTexts, List.foldl_cons,
      ih (acc ++ t) n, emittedOf, List.dropLast, List.filterMap, msgOfPush,
      List.map_cons]
    simp only [List.append_eq]
    rw [ih (acc ++ t) n]
    simp

theorem llm_run_turn (now : Nat) (d : FrameDirection) (texts : List String)
    (t0 : String) (n : Nat) :
    LLMProgressProcessor.run now ⟨t0, n⟩ (turnFrames texts d) =
      (⟨"", n + 1⟩,
       ((accumTexts "" texts).map fun a =>
           OutMsg.transcript "assistant" a false now (some (n + 1))) ++
         (if texts.foldl (· ++ ·) "" = "" then []
          else [OutMsg.transcript "assistant" (texts.foldl (· ++ ·) "")
                  true now (some (n + 1))])) := by
  have h := llm_run_turn_tail now d texts "" (n + 1)
  simp only [turnFrames, LLMProgressProcessor.run,
    LLMProgressProcessor.process_frame, emittedOf, List.dropLast,
    List.filterMap]
  exact h

/-- C3: `STTProgressProcessor` assigns user transcripts strictly increasing
message ids, incremented exactly once per final `TranscriptionFrame`; and
within one complete LLM response, `LLMProgressProcessor` increments its
assistant id exactly once (on the start frame), every incremental and final
assistant transcript of that turn carries that same id, and each
incremental transcript carries the full text accumulated so far. -/
theorem c3_transcripts_keyed_by_turn_ids :
    (∀ (now st : Nat) (l : List (Frame × FrameDirection)),
       (STTProgressProcessor.run now st l).1 = st + countTranscriptions l ∧
       transcriptIds (STTProgressProcessor.run now st l).2 =
         List.range' (st + 1) (countTranscriptions l) ∧
       List.Chain' (· < ·)
         (transcriptIds (STTProgressProcessor.run now st l).2)) ∧
    (∀ (now n : Nat) (t0 : String) (texts : List String)
       (d : FrameDirection),
       LLMProgressProcessor.run now ⟨t0, n⟩ (turnFrames texts d) =
         (⟨"", n + 1⟩,
          ((accumTexts "" texts).map fun a =>
              OutMsg.transcript "assistant" a false now (some (n + 1))) ++
            (if texts.foldl (· ++ ·) "" = "" then []
             else [OutMsg.transcript "assistant" (texts.foldl (· ++ ·) "")
                     true now (some (n + 1))]))) := by
  constructor
  · intro now st l
    obtain ⟨h1, h2⟩ := stt_run_ids now l st
    refine ⟨h1, h2, ?_⟩
    rw [h2]
    exact (List.pairwise_lt_range' _ _).chain'
  · intro now n t0 texts d
    exact llm_run_turn now d texts t0 n

theorem foldl_append_replicate_empty :
    ∀ k : Nat, (List.replicate k "").foldl (· ++ ·) "" = "" := by
  intro k
  induction k with
  | zero => rfl
  | succ k ih =>
    rw [List.replicate_succ, List.foldl_cons]
    exact ih

theorem accumTexts_replicate_empty :
    ∀ k : Nat, accumTexts "" (List.replicate k "") = List.replicate k "" := by
  intro k
  induction k with
  | zero => rfl
  | succ k ih =>
    rw [List.replicate_succ, accumTexts]
    have h : ("" : String) ++ "" = "" := rfl
    rw [h, ih]

theorem filter_final_of_incremental (now m : Nat) (l : List String) :
    (l.map fun a =>
        OutMsg.transcript "assistant" a false now (some m)).filter
      isFinalTranscript = [] := by
  induction l with
  | nil => rfl
  | cons a l ih =>
    rw [List.map_cons, List.filter_cons]
    simp [isFinalTranscript, ih]

/-- C10: over a complete LLM response whose text frames are all empty (or
absent), `LLMProgressProcessor` emits no final transcript on
`LLMFullResponseEndFrame`, yet the turn's message identifier was still
consumed by the start frame (the assistant id ends at `n + 1`). -/
theorem c10_empty_llm_response_consumes_id :
    ∀ (now n k : Nat) (d : FrameDirection),
      ((LLMProgressProcessor.run now ⟨"", n⟩
           (turnFrames (List.replicate k "") d)).2.filter
         isFinalTranscript = []) ∧
      (LLMProgressProcessor.run now ⟨"", n⟩
           (turnFrames (List.replicate k "") d)).1.assistant_message_id =
        n + 1 := by
  intro now n k d
  rw [llm_run_turn now d (List.replicate k "") "" n]
  rw [foldl_append_replicate_empty k, accumTexts_replicate_empty k]
  refine ⟨?_, rfl⟩
  simp [filter_final_of_incremental now (n + 1) (List.replicate k ""),
    isFinalTranscript]
